import Mathlib

/-!
Verification development for the pangloss orchestration-and-merge subsystem.

The TypeScript/JavaScript sources are shallowly embedded: JavaScript numbers
are modelled by `JSNum` (an exact rational together with the special values
`nan`, `inf`, `ninf`, which arise from division by zero and from `parseInt`
on non-numeric text); records become structures; asynchronous functions that
only sequence external processes become pure functions over explicit oracle
parameters describing the outcomes of those processes.
-/

/-- Model of a JavaScript number: either an exact finite value (modelled as a
rational, ignoring binary rounding) or one of the IEEE special values
`NaN`, `+Infinity`, `-Infinity` that the source code can produce via
division by zero and `parseInt` of non-numeric strings. -/
inductive JSNum where
  | nan : JSNum
  | inf : JSNum
  | ninf : JSNum
  | fin (q : ℚ) : JSNum
deriving DecidableEq, Repr

namespace JSNum

/-- JavaScript addition restricted to the values of this model:
`NaN` propagates, `Infinity + (-Infinity)` is `NaN`, infinities absorb
finite values, finite values add exactly. -/
def add : JSNum → JSNum → JSNum
  | nan, _ => nan
  | _, nan => nan
  | inf, ninf => nan
  | ninf, inf => nan
  | inf, _ => inf
  | _, inf => inf
  | ninf, _ => ninf
  | _, ninf => ninf
  | fin a, fin b => fin (a + b)

/-- JavaScript multiplication: `NaN` propagates, `Infinity * 0` is `NaN`,
otherwise infinities follow the sign rule, finite values multiply exactly. -/
def mul : JSNum → JSNum → JSNum
  | nan, _ => nan
  | _, nan => nan
  | inf, inf => inf
  | inf, ninf => ninf
  | ninf, inf => ninf
  | ninf, ninf => inf
  | inf, fin b => if b = 0 then nan else if 0 < b then inf else ninf
  | fin a, inf => if a = 0 then nan else if 0 < a then inf else ninf
  | ninf, fin b => if b = 0 then nan else if 0 < b then ninf else inf
  | fin a, ninf => if a = 0 then nan else if 0 < a then ninf else inf
  | fin a, fin b => fin (a * b)

/-- JavaScript division: `NaN` propagates, `x / 0` is `NaN` when `x = 0` and
a signed infinity otherwise, an infinity divided by a finite value stays
infinite, a finite value divided by an infinity is `0`, `Infinity / Infinity`
is `NaN`. -/
def div : JSNum → JSNum → JSNum
  | nan, _ => nan
  | _, nan => nan
  | inf, inf => nan
  | inf, ninf => nan
  | ninf, inf => nan
  | ninf, ninf => nan
  | inf, fin b => if 0 ≤ b then inf else ninf
  | ninf, fin b => if 0 ≤ b then ninf else inf
  | fin _, inf => fin 0
  | fin _, ninf => fin 0
  | fin a, fin b =>
      if b = 0 then (if a = 0 then nan else if 0 < a then inf else ninf)
      else fin (a / b)

/-- The `Math.min`: returns `NaN` if either argument is `NaN`, otherwise the
smaller value in the usual order with `-Infinity < finite < Infinity`. -/
def minJS : JSNum → JSNum → JSNum
  | nan, _ => nan
  | _, nan => nan
  | ninf, _ => ninf
  | _, ninf => ninf
  | inf, b => b
  | a, inf => a
  | fin a, fin b => fin (min a b)

/-- The JavaScript `<` comparison as a boolean: every comparison involving
`NaN` is `false`. -/
def ltb : JSNum → JSNum → Bool
  | nan, _ => false
  | _, nan => false
  | inf, _ => false
  | _, inf => true
  | _, ninf => false
  | ninf, _ => true
  | fin a, fin b => decide (a < b)

/-- The JavaScript `<=` comparison as a boolean: every comparison involving
`NaN` is `false`. -/
def leb : JSNum → JSNum → Bool
  | nan, _ => false
  | _, nan => false
  | ninf, _ => true
  | _, ninf => false
  | _, inf => true
  | inf, _ => false
  | fin a, fin b => decide (a ≤ b)

/-- The `x.isFin q` holds when `x` is the finite value `q`. -/
def isFin (x : JSNum) : Prop := ∃ q : ℚ, x = fin q


end JSNum

/-- The `build_status` enumeration from `src/types.ts`. -/
inductive BuildStatus where
  | success : BuildStatus
  | failed : BuildStatus
  | not_run : BuildStatus
deriving DecidableEq, Repr

/-- The `TestResults` from `src/types.ts`.  Numeric fields carry the exact
rational value of the JSON number. -/
structure TestResults where
  passed : ℚ
  failed : ℚ
  total : ℚ
  coverage : Option ℚ := none
  duration_ms : ℚ
deriving DecidableEq, Repr

/-- The `PlaywrightResults` from `src/types.ts`. -/
structure PlaywrightResults where
  passed : ℚ
  failed : ℚ
  total : ℚ
  screenshots : List String
  duration_ms : ℚ
deriving DecidableEq, Repr

/-- The `AgentMetrics` from `src/types.ts`. -/
structure AgentMetrics where
  files_changed : ℚ
  lines_added : ℚ
  lines_removed : ℚ
  complexity_score : ℚ
  quality_score : ℚ
  execution_time_ms : ℚ
deriving DecidableEq, Repr

/-- The `AgentResult` from `src/types.ts`.  Optional interface fields become
`Option`; their absence in the JSON artifact is `none`. -/
structure AgentResult where
  agent_id : String
  branch_name : String
  success : Bool
  changes_made : List String
  test_results : Option TestResults := none
  build_status : BuildStatus
  playwright_results : Option PlaywrightResults := none
  metrics : AgentMetrics
  error : Option String := none
deriving DecidableEq, Repr

/-- The `type` field of `MergeStrategy` from `src/types.ts`. -/
inductive MergeType where
  | best_overall : MergeType
  | best_per_file : MergeType
  | composite : MergeType
deriving DecidableEq, Repr

/-- The `weights` field of `MergeStrategy` from `src/types.ts`. -/
structure Weights where
  test_success : ℚ
  code_quality : ℚ
  performance : ℚ
  coverage : ℚ
deriving DecidableEq, Repr

/-- The `MergeStrategy` from `src/types.ts`. -/
structure MergeStrategy where
  type : MergeType
  weights : Weights
deriving DecidableEq, Repr

/-- The `testScore` local of `ResultMerger.calculateCompositeScore`
(`src/result-merger.ts` line 47): guarded by the *presence* of
`test_results` (a truthiness test on the object), not by `total > 0`;
when present, the JavaScript division `passed / total` is performed even
if `total = 0`. -/
def testScoreOf (result : AgentResult) : JSNum :=
  match result.test_results with
  | some t => JSNum.div (JSNum.fin t.passed) (JSNum.fin t.total)
  | none => JSNum.fin 0

/-- The `buildScore` local of `ResultMerger.calculateCompositeScore`
(`src/result-merger.ts` line 51). -/
def buildScoreOf (result : AgentResult) : JSNum :=
  if result.build_status = BuildStatus.success then JSNum.fin 1 else JSNum.fin 0

/-- The `qualityScore` local of `ResultMerger.calculateCompositeScore`
(`src/result-merger.ts` line 52): `quality_score / 100`. -/
def qualityScoreOf (result : AgentResult) : JSNum :=
  JSNum.div (JSNum.fin result.metrics.quality_score) (JSNum.fin 100)

/-- The `performanceScore` local of `ResultMerger.calculateCompositeScore`
(`src/result-merger.ts` line 53): `Math.min(1, 10000 / execution_time_ms)`. -/
def performanceScore (result : AgentResult) : JSNum :=
  JSNum.minJS (JSNum.fin 1)
    (JSNum.div (JSNum.fin 10000) (JSNum.fin result.metrics.execution_time_ms))

/-- The `ResultMerger.calculateCompositeScore` (`src/result-merger.ts`
lines 43-61), computed in JavaScript-number arithmetic. -/
def calculateCompositeScore (result : AgentResult) (weights : Weights) : JSNum :=
  JSNum.add
    (JSNum.add
      (JSNum.add
        (JSNum.mul (testScoreOf result) (JSNum.fin weights.test_success))
        (JSNum.mul (qualityScoreOf result) (JSNum.fin weights.code_quality)))
      (JSNum.mul (performanceScore result) (JSNum.fin weights.performance)))
    (JSNum.mul (buildScoreOf result) (JSNum.fin (1 / 10)))

/-- The scoring function exactly as the specification words it (spec §4.2):
`test_score` is `passed / total` when the test summary's `total` is
positive and `0` otherwise; `perf` treats `execution_time_ms = 0` as `1`;
all arithmetic is exact. -/
def scoreSpec (result : AgentResult) (weights : Weights) : ℚ :=
  let testScore : ℚ :=
    match result.test_results with
    | some t => if 0 < t.total then t.passed / t.total else 0
    | none => 0
  let buildScore : ℚ := if result.build_status = BuildStatus.success then 1 else 0
  let quality : ℚ := result.metrics.quality_score / 100
  let perf : ℚ :=
    if result.metrics.execution_time_ms = 0 then 1
    else min 1 (10000 / result.metrics.execution_time_ms)
  testScore * weights.test_success + quality * weights.code_quality +
    perf * weights.performance + buildScore * (1 / 10)

/-- The `RankedResult` (spec §3): an `AgentResult` together with its derived
`composite_score`, as produced by the object spread in
`ResultMerger.rankResults` (`src/result-merger.ts` lines 36-39). -/
structure RankedResult where
  result : AgentResult
  composite_score : JSNum
deriving DecidableEq, Repr

/-- The comparator discipline of the stable JavaScript
`Array.prototype.sort` with comparator `(a, b) => b.score - a.score`:
an element `x` may stay before `y` unless the comparator orders `y`
strictly first, i.e. unless `x.score < y.score`.  Comparisons involving
`NaN` are ties. -/
def rankRel (x y : RankedResult) : Bool :=
  ! JSNum.ltb x.composite_score y.composite_score

/-- Insertion of one element into an already-sorted ranked list, placing
it before the first element it need not yield to (the unique stable
position). -/
def orderedInsertRank (x : RankedResult) : List RankedResult → List RankedResult
  | [] => [x]
  | y :: l => if rankRel x y then x :: y :: l else y :: orderedInsertRank x l

/-- Stable sort of ranked results in descending score order.  Since
`Array.prototype.sort` is required to be stable and a stable sort is
uniquely determined by a consistent comparator, this insertion sort is
the behaviour of `ResultMerger.rankResults` whenever the computed scores
are comparable (no `NaN`). -/
def rankSort : List RankedResult → List RankedResult
  | [] => []
  | x :: l => orderedInsertRank x (rankSort l)

/-- The `ResultMerger.rankResults` (`src/result-merger.ts` lines 34-41): map
each result to a `RankedResult` carrying its composite score, then sort
descending by score with the stable built-in sort. -/
def rankResults (results : List AgentResult) (strategy : MergeStrategy) :
    List RankedResult :=
  rankSort (results.map (fun result =>
    { result := result
      composite_score := calculateCompositeScore result strategy.weights }))


/-- The descending-order relation between adjacent output elements:
the later score is `≤` the earlier one. -/
def descAt (x y : RankedResult) : Prop :=
  JSNum.leb y.composite_score x.composite_score = true

/-- All composite scores in the list are finite (comparable). -/
def finiteScores (l : List RankedResult) : Prop :=
  ∀ z ∈ l, ∃ q : ℚ, z.composite_score = JSNum.fin q


/-- The `LLMPreset` from `src/types.ts`. -/
structure LLMPreset where
  provider : String
  model : String
  cli_model : Option String := none
  temperature : ℚ
  max_tokens : Option ℚ := none
  system_prompt : Option String := none
deriving DecidableEq, Repr

/-- The `AgentRequest` from `src/types.ts`. -/
structure AgentRequest where
  repo_url : String
  feature_name : String
  branch_name : String
  llm_preset : LLMPreset
  request_prompt : String
  github_token : String
deriving DecidableEq, Repr

/-- Outcome of the coordinator's attempt to load one per-agent artifact
`results/agent-i/result.json` (`src/docker-orchestrator.ts` lines 130-137):
the file may be absent (`existsSync` false), reading or `JSON.parse` may
throw with some message, or a well-formed `AgentResult` is obtained. -/
inductive ArtifactRead where
  | missing : ArtifactRead
  | failed (msg : String) : ArtifactRead
  | ok (result : AgentResult) : ArtifactRead
deriving DecidableEq, Repr

/-- The synthetic failure `AgentResult` the coordinator pushes for agent `i`
when the artifact is missing or unreadable (`src/docker-orchestrator.ts`
lines 140-155 and 158-173); only the `error` message differs between the
two sites. -/
def syntheticResult (request : AgentRequest) (msg : String) : AgentResult :=
  { agent_id := request.llm_preset.provider
    branch_name := request.branch_name
    success := false
    changes_made := []
    test_results := none
    build_status := BuildStatus.not_run
    playwright_results := none
    metrics :=
      { files_changed := 0
        lines_added := 0
        lines_removed := 0
        complexity_score := 0
        quality_score := 0
        execution_time_ms := 0 }
    error := some msg }

/-- One loop iteration of `DockerOrchestrator.collectResults`: what gets
pushed for request `i` given the artifact read outcome. -/
def collectOne (request : AgentRequest) : ArtifactRead → AgentResult
  | ArtifactRead.ok result => result
  | ArtifactRead.missing =>
      syntheticResult request ("Agent did not complete execution")
  | ArtifactRead.failed msg =>
      syntheticResult request ("Failed to read result: " ++ msg)

/-- Index-tracking loop of `DockerOrchestrator.collectResults`
(`src/docker-orchestrator.ts` lines 130-175); `artifacts i` is the state
of `results/agent-i/result.json`. -/
def collectResultsFrom (artifacts : Nat → ArtifactRead) :
    Nat → List AgentRequest → List AgentResult
  | _, [] => []
  | i, request :: rest =>
      collectOne request (artifacts i) :: collectResultsFrom artifacts (i + 1) rest

/-- The `DockerOrchestrator.collectResults` (`src/docker-orchestrator.ts`
lines 126-178). -/
def collectResults (requests : List AgentRequest)
    (artifacts : Nat → ArtifactRead) : List AgentResult :=
  collectResultsFrom artifacts 0 requests

/-- The `DockerOrchestrator.executeDockerCompose` (`src/docker-orchestrator.ts`
lines 88-124): on docker-compose exit code `0` it resolves with the
collected results, otherwise it rejects. -/
def executeDockerCompose (requests : List AgentRequest)
    (artifacts : Nat → ArtifactRead) (exitCode : Int) (stderr : String) :
    Except String (List AgentResult) :=
  if exitCode = 0 then Except.ok (collectResults requests artifacts)
  else Except.error ("Docker compose failed with code " ++ toString exitCode
    ++ "\n" ++ stderr)


/-- The kinds of externally visible git / GitHub actions the merge and
pull-request phases attempt, in order. -/
inductive Step where
  | clone (url : String) : Step
  | createBranch (name : String) : Step
  | mergeBranch (branch : String) : Step
  | checkoutTheirs : Step
  | commit (msg : String) : Step
  | push (branch : String) : Step
  | createPR (repo : String) (head : String) : Step
deriving DecidableEq, Repr

/-- Oracle for the exit codes of the external processes the merge engine
spawns: whether `git clone` succeeds, whether `git checkout -b` succeeds,
whether `git merge <branch> --no-ff` exits 0 for a given branch, whether
the conflict-resolution `git commit` succeeds, and whether `git push`
succeeds. -/
structure GitWorld where
  clone_ok : Bool
  branch_ok : Bool
  merge_ok : String → Bool
  commit_ok : Bool
  push_ok : Bool

/-- The `ResultMerger.setupFinalBranch` (`src/result-merger.ts` lines 63-88):
clone, then create and check out the final branch; each failure rejects
with its message.  Returns the outcome and the trace of attempted steps. -/
def setupFinalBranch (repoUrl finalBranch : String) (world : GitWorld) :
    Except String Unit × List Step :=
  if world.clone_ok then
    if world.branch_ok then
      (Except.ok (), [Step.clone repoUrl, Step.createBranch finalBranch])
    else
      (Except.error ("Failed to create branch " ++ finalBranch),
        [Step.clone repoUrl, Step.createBranch finalBranch])
  else (Except.error ("Failed to clone repository"), [Step.clone repoUrl])

/-- The `ResultMerger.mergeBestOverall` (`src/result-merger.ts` lines 90-126):
merge the chosen branch with `--no-ff`; on a non-zero exit, resolve by
`checkout --theirs .` followed by a commit, rejecting only if that commit
fails. -/
def mergeBestOverall (best : RankedResult) (world : GitWorld) :
    Except String Unit × List Step :=
  let branch := best.result.branch_name
  if world.merge_ok branch then (Except.ok (), [Step.mergeBranch branch])
  else
    let steps := [Step.mergeBranch branch, Step.checkoutTheirs,
      Step.commit ("Merge best solution from " ++ best.result.agent_id)]
    if world.commit_ok then (Except.ok (), steps)
    else (Except.error ("Failed to resolve merge conflicts"), steps)

/-- Access to `rankedResults[0]` in JavaScript: `undefined` on an empty
array, and reading `.branch_name` of `undefined` throws. -/
def mergeTop (ranked : List RankedResult) (world : GitWorld) :
    Except String Unit × List Step :=
  match ranked.head? with
  | some top => mergeBestOverall top world
  | none =>
      (Except.error ("Cannot read properties of undefined"), [])

/-- The `ResultMerger.mergeBestPerFile` (`src/result-merger.ts` lines 128-137):
documented as per-file selection, but the body falls back to
`mergeBestOverall(rankedResults[0], ...)`. -/
def mergeBestPerFile (ranked : List RankedResult) (world : GitWorld) :
    Except String Unit × List Step :=
  mergeTop ranked world

/-- The `ResultMerger.mergeComposite` (`src/result-merger.ts` lines 139-148):
likewise falls back to `mergeBestOverall(rankedResults[0], ...)`. -/
def mergeComposite (ranked : List RankedResult) (world : GitWorld) :
    Except String Unit × List Step :=
  mergeTop ranked world

/-- The `ResultMerger.pushBranch` (`src/result-merger.ts` lines 150-164). -/
def pushBranch (finalBranch : String) (world : GitWorld) :
    Except String Unit × List Step :=
  if world.push_ok then (Except.ok (), [Step.push finalBranch])
  else (Except.error ("Failed to push branch " ++ finalBranch),
    [Step.push finalBranch])

/-- The `ResultMerger.mergeBestSolutions` (`src/result-merger.ts` lines 5-32):
rank, set up the final branch, dispatch on the strategy kind, then push.
The first rejection aborts the remaining phases. -/
def mergeBestSolutions (results : List AgentResult) (finalBranch : String)
    (strategy : MergeStrategy) (repoUrl : String) (world : GitWorld) :
    Except String Unit × List Step :=
  let ranked := rankResults results strategy
  let setup := setupFinalBranch repoUrl finalBranch world
  match setup.1 with
  | Except.error e => (Except.error e, setup.2)
  | Except.ok () =>
      let merged :=
        match strategy.type with
        | MergeType.best_overall => mergeTop ranked world
        | MergeType.best_per_file => mergeBestPerFile ranked world
        | MergeType.composite => mergeComposite ranked world
      match merged.1 with
      | Except.error e => (Except.error e, setup.2 ++ merged.2)
      | Except.ok () =>
          let pushed := pushBranch finalBranch world
          (pushed.1, setup.2 ++ merged.2 ++ pushed.2)

/-- The `GenerateResult` from `src/pangloss.ts` lines 19-25 (the
`OrchestrationOutcome` of the spec). -/
structure GenerateResult where
  success : Bool
  final_branch : Option String := none
  pr_url : Option String := none
  agent_results : List AgentResult
  error : Option String := none
deriving DecidableEq, Repr

/-- The hard-coded weights of `Pangloss.generate`
(`src/pangloss.ts` lines 90-95). -/
def generateWeights : Weights :=
  { test_success := 4 / 10
    code_quality := 3 / 10
    performance := 2 / 10
    coverage := 1 / 10 }

/-- The `Pangloss.generate` from the point where the agent results are in hand
(`src/pangloss.ts` lines 69-131): filter the successful results; if none,
return the failure outcome immediately (no merge engine call, so no steps
are attempted); otherwise run the merge engine — whose rejection is caught
and turned into a failure outcome with an *empty* `agent_results` list —
and finally attempt the pull request, whose failure (`prOutcome = none`)
leaves the outcome successful with `pr_url` unset. -/
def generate (agentResults : List AgentResult) (repoName featureName : String)
    (mergeType : MergeType) (repoUrl : String) (world : GitWorld)
    (prOutcome : Option String) : GenerateResult × List Step :=
  let successfulResults := agentResults.filter (fun r => r.success)
  if successfulResults.isEmpty then
    ({ success := false
       final_branch := none
       pr_url := none
       agent_results := agentResults
       error := some ("No agents completed successfully") }, [])
  else
    let strategy : MergeStrategy := { type := mergeType, weights := generateWeights }
    let finalBranch := repoName ++ "/" ++ featureName ++ "/final"
    let merged := mergeBestSolutions successfulResults finalBranch strategy repoUrl world
    match merged.1 with
    | Except.error e =>
        ({ success := false
           final_branch := none
           pr_url := none
           agent_results := []
           error := some e }, merged.2)
    | Except.ok () =>
        ({ success := true
           final_branch := some finalBranch
           pr_url := prOutcome
           agent_results := agentResults
           error := none }, merged.2 ++ [Step.createPR repoUrl finalBranch])

/-- JavaScript whitespace test used by `trim` and `parseInt`. -/
def jsWhitespace (c : Char) : Bool := c.isWhitespace

/-- The `String.prototype.trim` over the character list of the string. -/
def jsTrim (cs : List Char) : List Char :=
  ((cs.dropWhile jsWhitespace).reverse.dropWhile jsWhitespace).reverse

/-- The `String.prototype.split` with a one-character separator.  As in
JavaScript, splitting the empty string yields `[""]` and a trailing
separator yields a trailing empty field. -/
def splitChar (sep : Char) : List Char → List (List Char)
  | [] => [[]]
  | c :: rest =>
      match splitChar sep rest with
      | [] => [[c]]
      | g :: gs => if c = sep then [] :: g :: gs else (c :: g) :: gs

/-- Numeric value of a decimal digit character. -/
def digitVal (c : Char) : Nat := c.toNat - 48

/-- Value of a non-empty decimal digit string. -/
def digitsToNat (ds : List Char) : Nat :=
  ds.foldl (fun n c => n * 10 + digitVal c) 0

/-- Radix-10 digit parsing for `parseInt` after sign handling: no leading
digit means `NaN`. -/
def parseDigits (cs : List Char) (neg : Bool) : JSNum :=
  let ds := cs.takeWhile Char.isDigit
  if ds.isEmpty then JSNum.nan
  else JSNum.fin (if neg then -(digitsToNat ds : ℚ) else (digitsToNat ds : ℚ))

/-- JavaScript `parseInt(s)` (radix 10): skip leading whitespace, optional
sign, then the maximal run of decimal digits; `NaN` when that run is
empty. -/
def parseIntChars (cs : List Char) : JSNum :=
  match cs.dropWhile jsWhitespace with
  | '-' :: rest => parseDigits rest true
  | '+' :: rest => parseDigits rest false
  | rest => parseDigits rest false

/-- The `parseInt` as called on `line.split('\t')[1]`, which is `undefined`
when the line has no tab: `parseInt(undefined)` coerces to the string
`"undefined"` and yields `NaN`. -/
def parseIntUndef : Option (List Char) → JSNum
  | none => JSNum.nan
  | some cs => parseIntChars cs

/-- The metrics object built by `AgentRunner.calculateMetrics`
(`src/agent-runner.js` lines 311-339) before the caller adds
`execution_time_ms`; its numeric fields are JavaScript numbers. -/
structure MetricsJS where
  files_changed : Nat
  lines_added : JSNum
  lines_removed : JSNum
  complexity_score : JSNum
  quality_score : JSNum
deriving DecidableEq, Repr

/-- One iteration of the `for (const line of lines)` loop of
`calculateMetrics`: destructure `[added, removed] = line.split('\t')` and
accumulate `parseInt` of each part unless it is the literal `"-"`
(binary-file marker).  A missing part is `undefined`, which is `!== '-'`
and parses to `NaN`. -/
def metricsLineStep (acc : JSNum × JSNum) (line : List Char) : JSNum × JSNum :=
  let parts := splitChar '\t' line
  let added := parts.headD []
  let removed := parts.get? 1
  let la := if added ≠ ['-'] then JSNum.add acc.1 (parseIntChars added) else acc.1
  let lr := if removed ≠ some ['-'] then JSNum.add acc.2 (parseIntUndef removed)
    else acc.2
  (la, lr)

/-- The `AgentRunner.calculateMetrics` (`src/agent-runner.js` lines 311-339):
`files_changed` is the changed-file count, the line counts are summed from
`git diff --numstat HEAD` output, and
`quality_score = Math.min(100, (lines_added + lines_removed) / 10)`. -/
def calculateMetrics (changedFiles : List String) (diffStdout : String) :
    MetricsJS :=
  let lines := splitChar '\n' (jsTrim diffStdout.data)
  let counts := lines.foldl metricsLineStep (JSNum.fin 0, JSNum.fin 0)
  { files_changed := changedFiles.length
    lines_added := counts.1
    lines_removed := counts.2
    complexity_score := JSNum.fin 0
    quality_score :=
      JSNum.minJS (JSNum.fin 100)
        (JSNum.div (JSNum.add counts.1 counts.2) (JSNum.fin 10)) }

/-- Case-insensitive match of a literal pattern at the head of a character
list (the non-digit tail of the regexes `/(\d+) passing/i` etc.; the
pattern is given in lower case). -/
def matchesAt : List Char → List Char → Bool
  | [], _ => true
  | _ :: _, [] => false
  | l :: ls, c :: cs => (c.toLower = l) && matchesAt ls cs

/-- Leftmost match of the regex `/(\d+) <word>/i` over a character list:
at the first digit run that is immediately followed by a space and the
word (case-insensitively), return the run's numeric value.  Starting
inside a digit run can never match (the character after a shorter run is
a digit, not a space), so scanning forward one character at a time is
exactly the JavaScript leftmost-match rule. -/
def scanCount (lit : List Char) : List Char → Option Nat
  | [] => none
  | c :: rest =>
      if c.isDigit then
        let ds := (c :: rest).takeWhile Char.isDigit
        let tail := (c :: rest).dropWhile Char.isDigit
        if matchesAt lit tail then some (digitsToNat ds) else scanCount lit rest
      else scanCount lit rest

/-- The `output.match(/(\d+) word/i)` followed by `parseInt` of the captured
group, as used in `parseTestResults` and `parsePlaywrightResults`. -/
def extractCount (output : String) (word : String) : Option Nat :=
  scanCount (' ' :: word.data) output.data

/-- The `AgentRunner.parseTestResults` (`src/agent-runner.js` lines 284-295):
capture `"<n> passing"` and `"<n> failing"` (defaulting to `0`), with
`total` their sum and `duration_ms` hard-coded to `0`. -/
def parseTestResults (output : String) : TestResults :=
  let passed := (extractCount output ("passing")).getD 0
  let failed := (extractCount output ("failing")).getD 0
  { passed := (passed : ℚ)
    failed := (failed : ℚ)
    total := (passed : ℚ) + (failed : ℚ)
    coverage := none
    duration_ms := 0 }

/-- The `AgentRunner.parsePlaywrightResults` (`src/agent-runner.js`
lines 297-309): capture `"<n> passed"` and `"<n> failed"`, with `total`
their sum, an empty screenshot list and `duration_ms` hard-coded to `0`. -/
def parsePlaywrightResults (output : String) : PlaywrightResults :=
  let passed := (extractCount output ("passed")).getD 0
  let failed := (extractCount output ("failed")).getD 0
  { passed := (passed : ℚ)
    failed := (failed : ℚ)
    total := (passed : ℚ) + (failed : ℚ)
    screenshots := []
    duration_ms := 0 }

/-- JSON documents, the artifact format produced by
`AgentRunner.writeResult` via `JSON.stringify` and consumed by
`DockerOrchestrator.collectResults` via `JSON.parse`
(`src/agent-runner.js` lines 353-356, `src/docker-orchestrator.ts`
lines 133-137). -/
inductive Json where
  | null : Json
  | bool (b : Bool) : Json
  | num (q : ℚ) : Json
  | str (s : String) : Json
  | arr (items : List Json) : Json
  | obj (fields : List (String × Json)) : Json

/-- Key lookup in a JSON object; `none` both for a missing key and for a
non-object, matching property access on the parsed value. -/
def Json.getField : Json → String → Option Json
  | Json.obj fields, key => fields.lookup key
  | _, _ => none

/-- The `JSON.stringify` of a `TestResults` value: `undefined` fields
(`coverage` when absent) are omitted from the object. -/
def encodeTestResults (t : TestResults) : Json :=
  Json.obj
    ([("passed", Json.num t.passed), ("failed", Json.num t.failed),
      ("total", Json.num t.total)] ++
     (match t.coverage with
      | some c => [("coverage", Json.num c)]
      | none => []) ++
     [("duration_ms", Json.num t.duration_ms)])

/-- The `JSON.stringify` of a `PlaywrightResults` value. -/
def encodePlaywrightResults (p : PlaywrightResults) : Json :=
  Json.obj
    [("passed", Json.num p.passed), ("failed", Json.num p.failed),
     ("total", Json.num p.total),
     ("screenshots", Json.arr (p.screenshots.map Json.str)),
     ("duration_ms", Json.num p.duration_ms)]

/-- The `JSON.stringify` of an `AgentMetrics` value. -/
def encodeAgentMetrics (m : AgentMetrics) : Json :=
  Json.obj
    [("files_changed", Json.num m.files_changed),
     ("lines_added", Json.num m.lines_added),
     ("lines_removed", Json.num m.lines_removed),
     ("complexity_score", Json.num m.complexity_score),
     ("quality_score", Json.num m.quality_score),
     ("execution_time_ms", Json.num m.execution_time_ms)]

/-- The `build_status` string in the artifact. -/
def encodeBuildStatus : BuildStatus → Json
  | BuildStatus.success => Json.str ("success")
  | BuildStatus.failed => Json.str ("failed")
  | BuildStatus.not_run => Json.str ("not_run")

/-- The `JSON.stringify(result)` in `AgentRunner.writeResult`: the artifact
object, with every `undefined` optional field (`test_results`,
`playwright_results`, `error`) omitted. -/
def encodeAgentResult (r : AgentResult) : Json :=
  Json.obj
    ([("agent_id", Json.str r.agent_id),
      ("branch_name", Json.str r.branch_name),
      ("success", Json.bool r.success),
      ("changes_made", Json.arr (r.changes_made.map Json.str))] ++
     (match r.test_results with
      | some t => [("test_results", encodeTestResults t)]
      | none => []) ++
     [("build_status", encodeBuildStatus r.build_status)] ++
     (match r.playwright_results with
      | some p => [("playwright_results", encodePlaywrightResults p)]
      | none => []) ++
     [("metrics", encodeAgentMetrics r.metrics)] ++
     (match r.error with
      | some e => [("error", Json.str e)]
      | none => []))

/-- Reading a JSON number field. -/
def Json.asNum : Json → Option ℚ
  | Json.num q => some q
  | _ => none

/-- Reading a JSON string field. -/
def Json.asStr : Json → Option String
  | Json.str s => some s
  | _ => none

/-- Reading a JSON boolean field. -/
def Json.asBool : Json → Option Bool
  | Json.bool b => some b
  | _ => none

/-- Reading a JSON array of strings. -/
def decodeStrings : List Json → Option (List String)
  | [] => some []
  | Json.str s :: rest => (decodeStrings rest).map (fun l => s :: l)
  | _ => none

/-- Reading the `build_status` enumeration back from its string. -/
def decodeBuildStatus : Json → Option BuildStatus
  | Json.str s =>
      if s = "success" then some BuildStatus.success
      else if s = "failed" then some BuildStatus.failed
      else if s = "not_run" then some BuildStatus.not_run
      else none
  | _ => none

/-- Reading an optional field: an absent key decodes to `none` (the
`undefined` of the reloaded object), a present key must decode. -/
def decodeOptField (j : Json) (key : String) (dec : Json → Option α) :
    Option (Option α) :=
  match j.getField key with
  | none => some none
  | some v => (dec v).map some

/-- Reloading a `TestResults` from the artifact. -/
def decodeTestResults (j : Json) : Option TestResults := do
  let passed ← (j.getField ("passed")).bind Json.asNum
  let failed ← (j.getField ("failed")).bind Json.asNum
  let total ← (j.getField ("total")).bind Json.asNum
  let coverage ← decodeOptField j ("coverage") Json.asNum
  let duration ← (j.getField ("duration_ms")).bind Json.asNum
  pure { passed := passed, failed := failed, total := total,
         coverage := coverage, duration_ms := duration }

/-- Reloading a `PlaywrightResults` from the artifact. -/
def decodePlaywrightResults (j : Json) : Option PlaywrightResults := do
  let passed ← (j.getField ("passed")).bind Json.asNum
  let failed ← (j.getField ("failed")).bind Json.asNum
  let total ← (j.getField ("total")).bind Json.asNum
  let screenshots ←
    match j.getField ("screenshots") with
    | some (Json.arr items) => decodeStrings items
    | _ => none
  let duration ← (j.getField ("duration_ms")).bind Json.asNum
  pure { passed := passed, failed := failed, total := total,
         screenshots := screenshots, duration_ms := duration }

/-- Reloading an `AgentMetrics` from the artifact. -/
def decodeAgentMetrics (j : Json) : Option AgentMetrics := do
  let files ← (j.getField ("files_changed")).bind Json.asNum
  let la ← (j.getField ("lines_added")).bind Json.asNum
  let lr ← (j.getField ("lines_removed")).bind Json.asNum
  let cx ← (j.getField ("complexity_score")).bind Json.asNum
  let q ← (j.getField ("quality_score")).bind Json.asNum
  let t ← (j.getField ("execution_time_ms")).bind Json.asNum
  pure { files_changed := files, lines_added := la, lines_removed := lr,
         complexity_score := cx, quality_score := q, execution_time_ms := t }

/-- Reloading an `AgentResult` from the artifact, the typed reading of
`JSON.parse(resultContent)` in `collectResults`. -/
def decodeAgentResult (j : Json) : Option AgentResult := do
  let agentId ← (j.getField ("agent_id")).bind Json.asStr
  let branch ← (j.getField ("branch_name")).bind Json.asStr
  let success ← (j.getField ("success")).bind Json.asBool
  let changes ←
    match j.getField ("changes_made") with
    | some (Json.arr items) => decodeStrings items
    | _ => none
  let tests ← decodeOptField j ("test_results") decodeTestResults
  let build ← (j.getField ("build_status")).bind decodeBuildStatus
  let pw ← decodeOptField j ("playwright_results") decodePlaywrightResults
  let metrics ← (j.getField ("metrics")).bind decodeAgentMetrics
  let err ← decodeOptField j ("error") Json.asStr
  pure { agent_id := agentId, branch_name := branch, success := success,
         changes_made := changes, test_results := tests, build_status := build,
         playwright_results := pw, metrics := metrics, error := err }

/-- Metrics of Agent A in the spec's concrete scenario (§8): quality 80,
time 5000 ms. -/
def metricsA : AgentMetrics :=
  { files_changed := 3, lines_added := 0, lines_removed := 0,
    complexity_score := 0, quality_score := 80, execution_time_ms := 5000 }

/-- Agent A of the spec's concrete scenario: tests 8/10, quality 80, build
success, 5000 ms. -/
def agentA : AgentResult :=
  { agent_id := "agent-a", branch_name := "repo/feat/agent-a", success := true,
    changes_made := ["src/a.ts"],
    test_results := some { passed := 8, failed := 2, total := 10, duration_ms := 0 },
    build_status := BuildStatus.success, metrics := metricsA }

/-- Agent B of the spec's concrete scenario: tests 10/10, quality 60, build
success, 20000 ms. -/
def agentB : AgentResult :=
  { agent_id := "agent-b", branch_name := "repo/feat/agent-b", success := true,
    changes_made := ["src/b.ts"],
    test_results := some { passed := 10, failed := 0, total := 10, duration_ms := 0 },
    build_status := BuildStatus.success,
    metrics := { metricsA with quality_score := 60, execution_time_ms := 20000 } }

/-- An agent result whose test summary is present but has `total = 0` —
exactly what `AgentRunner.runTests` produces when a test command exits 0
but neither count pattern matches its output. -/
def agentZeroTotal : AgentResult :=
  { agentA with
    test_results := some { passed := 0, failed := 0, total := 0, duration_ms := 0 } }

/-- An agent result with `execution_time_ms = 0`. -/
def agentZeroTime : AgentResult :=
  { agentA with metrics := { metricsA with execution_time_ms := 0 } }

/-- A failed agent result, as written by the failure path of
`AgentRunner.run`. -/
def failedAgent : AgentResult :=
  { agent_id := "agent-f", branch_name := "repo/feat/agent-f", success := false,
    changes_made := [], build_status := BuildStatus.failed,
    metrics := { metricsA with quality_score := 0, execution_time_ms := 120 },
    error := some ("claude failed with code 1") }

/-- A git oracle in which every external command exits 0. -/
def allOkWorld : GitWorld :=
  { clone_ok := true, branch_ok := true, merge_ok := fun _ => true,
    commit_ok := true, push_ok := true }

/-- A git oracle in which only the final `git push` fails. -/
def pushFailWorld : GitWorld :=
  { clone_ok := true, branch_ok := true, merge_ok := fun _ => true,
    commit_ok := true, push_ok := false }

/-- The merge strategy of the spec's concrete scenario. -/
def strategyExample : MergeStrategy :=
  { type := MergeType.best_overall, weights := generateWeights }

/-- A concrete agent request for coordinator witnesses. -/
def sampleRequest : AgentRequest :=
  { repo_url := "https://github.com/o/r", feature_name := "feat",
    branch_name := "r/feat/anthropic",
    llm_preset := { provider := "anthropic", model := "m", temperature := 1 },
    request_prompt := "do it", github_token := "t" }

/-- A concrete artifact state: agent 0 finished, agent 1 left no artifact,
agent 2's artifact was unreadable. -/
def sampleArtifacts : Nat → ArtifactRead
  | 0 => ArtifactRead.ok agentA
  | 1 => ArtifactRead.missing
  | _ => ArtifactRead.failed ("Unexpected token in JSON")

theorem JSNum.ltb_irrefl (a : JSNum) : JSNum.ltb a a = false := by
  cases a <;> simp [JSNum.ltb]

theorem JSNum.ltb_ne {a b : JSNum} (h : JSNum.ltb a b = true) : a ≠ b := by
  intro he; subst he; rw [ltb_irrefl] at h; exact Bool.noConfusion h

theorem JSNum.leb_of_not_ltb {p q : ℚ} (h : ¬ JSNum.ltb (JSNum.fin p) (JSNum.fin q) = true) :
    JSNum.leb (JSNum.fin q) (JSNum.fin p) = true := by
  simp [JSNum.ltb] at h
  simpa [JSNum.leb] using h

theorem JSNum.leb_of_ltb {p q : ℚ} (h : JSNum.ltb (JSNum.fin p) (JSNum.fin q) = true) :
    JSNum.leb (JSNum.fin p) (JSNum.fin q) = true := by
  simp [JSNum.ltb] at h
  simpa [JSNum.leb] using le_of_lt h

theorem JSNum.leb_trans {p q r : ℚ} (h1 : JSNum.leb (JSNum.fin p) (JSNum.fin q) = true)
    (h2 : JSNum.leb (JSNum.fin q) (JSNum.fin r) = true) : JSNum.leb (JSNum.fin p) (JSNum.fin r) = true := by
  simp [JSNum.leb] at h1 h2 ⊢
  exact le_trans h1 h2

theorem perm_orderedInsertRank (x : RankedResult) (l : List RankedResult) :
    List.Perm (orderedInsertRank x l) (x :: l) := by
  induction l with
  | nil => simp [orderedInsertRank]
  | cons y l ih =>
      by_cases h : rankRel x y = true
      · simp [orderedInsertRank, h]
      · simp only [orderedInsertRank, Bool.not_eq_true] at h ⊢
        rw [h]
        simp only [Bool.false_eq_true, if_false]
        exact ((ih.cons y).trans (List.Perm.swap x y l))

theorem perm_rankSort (l : List RankedResult) : List.Perm (rankSort l) l := by
  induction l with
  | nil => simp [rankSort]
  | cons x l ih =>
      exact (perm_orderedInsertRank x (rankSort l)).trans (ih.cons x)

theorem mem_orderedInsertRank {z x : RankedResult} {l : List RankedResult}
    (h : z ∈ orderedInsertRank x l) : z = x ∨ z ∈ l :=
  by simpa using (perm_orderedInsertRank x l).mem_iff.mp h

theorem descAt_of_rankRel {x y : RankedResult}
    (hx : ∃ q : ℚ, x.composite_score = JSNum.fin q)
    (hy : ∃ q : ℚ, y.composite_score = JSNum.fin q)
    (h : rankRel x y = true) : descAt x y := by
  obtain ⟨p, hp⟩ := hx
  obtain ⟨q, hq⟩ := hy
  unfold rankRel at h
  rw [hp, hq] at h
  unfold descAt
  rw [hp, hq]
  exact JSNum.leb_of_not_ltb (by simpa using h)

theorem descAt_of_not_rankRel {x y : RankedResult}
    (h : ¬ rankRel x y = true) : descAt y x := by
  unfold rankRel at h
  simp only [Bool.not_eq_true, Bool.not_eq_false] at h
  unfold descAt
  cases hx : x.composite_score <;> cases hy : y.composite_score <;>
    rw [hx, hy] at h <;> simp_all [JSNum.ltb, JSNum.leb]
  exact le_of_lt h

theorem descAt_trans {x y z : RankedResult}
    (hx : ∃ q : ℚ, x.composite_score = JSNum.fin q)
    (hy : ∃ q : ℚ, y.composite_score = JSNum.fin q)
    (hz : ∃ q : ℚ, z.composite_score = JSNum.fin q)
    (h1 : descAt x y) (h2 : descAt y z) : descAt x z := by
  obtain ⟨p, hp⟩ := hx
  obtain ⟨q, hq⟩ := hy
  obtain ⟨r, hr⟩ := hz
  unfold descAt at h1 h2 ⊢
  rw [hp, hq] at h1
  rw [hq, hr] at h2
  rw [hp, hr]
  exact JSNum.leb_trans h2 h1

theorem pairwise_orderedInsertRank {x : RankedResult} {l : List RankedResult}
    (hx : ∃ q : ℚ, x.composite_score = JSNum.fin q)
    (hl : finiteScores l)
    (hs : l.Pairwise descAt) :
    (orderedInsertRank x l).Pairwise descAt := by
  induction l with
  | nil => simp [orderedInsertRank]
  | cons y l ih =>
      have hy : ∃ q : ℚ, y.composite_score = JSNum.fin q := hl y (by simp)
      have hl' : finiteScores l := fun z hz => hl z (by simp [hz])
      rw [List.pairwise_cons] at hs
      by_cases h : rankRel x y = true
      · rw [orderedInsertRank, if_pos h]
        rw [List.pairwise_cons]
        constructor
        · intro z hz
          rcases List.mem_cons.mp hz with hz | hz
          · rw [hz]; exact descAt_of_rankRel hx hy h
          · exact descAt_trans hx hy (hl' z hz)
              (descAt_of_rankRel hx hy h) (hs.1 z hz)
        · exact List.pairwise_cons.mpr hs
      · rw [orderedInsertRank, if_neg h]
        rw [List.pairwise_cons]
        constructor
        · intro z hz
          rcases mem_orderedInsertRank hz with hz | hz
          · rw [hz]; exact descAt_of_not_rankRel h
          · exact hs.1 z hz
        · exact ih hl' hs.2

theorem finiteScores_rankSort {l : List RankedResult} (hl : finiteScores l) :
    finiteScores (rankSort l) :=
  fun z hz => hl z ((perm_rankSort l).mem_iff.mp hz)

theorem pairwise_rankSort {l : List RankedResult} (hl : finiteScores l) :
    (rankSort l).Pairwise descAt := by
  induction l with
  | nil => simp [rankSort]
  | cons x l ih =>
      have hx : ∃ q : ℚ, x.composite_score = JSNum.fin q := hl x (by simp)
      have hl' : finiteScores l := fun z hz => hl z (by simp [hz])
      exact pairwise_orderedInsertRank hx (finiteScores_rankSort hl') (ih hl')

theorem filter_orderedInsertRank (x : RankedResult) (l : List RankedResult)
    (s : JSNum) :
    (orderedInsertRank x l).filter (fun z => decide (z.composite_score = s)) =
      if x.composite_score = s then
        x :: l.filter (fun z => decide (z.composite_score = s))
      else l.filter (fun z => decide (z.composite_score = s)) := by
  induction l with
  | nil =>
      by_cases hx : x.composite_score = s <;>
        simp [orderedInsertRank, List.filter, hx]
  | cons y l ih =>
      by_cases h : rankRel x y = true
      · rw [orderedInsertRank, if_pos h]
        by_cases hx : x.composite_score = s <;>
          simp [List.filter, hx]
      · rw [orderedInsertRank, if_neg h]
        have hlt : JSNum.ltb x.composite_score y.composite_score = true := by
          unfold rankRel at h
          simpa using h
        have hne : x.composite_score ≠ y.composite_score := JSNum.ltb_ne hlt
        rw [List.filter_cons, List.filter_cons, ih]
        by_cases hx : x.composite_score = s
        · have hy : ¬ (y.composite_score = s) := fun hc => hne (hx.trans hc.symm)
          simp [hx, hy]
        · by_cases hy : y.composite_score = s <;> simp [hx, hy]

theorem filter_rankSort (l : List RankedResult) (s : JSNum) :
    (rankSort l).filter (fun z => decide (z.composite_score = s)) =
      l.filter (fun z => decide (z.composite_score = s)) := by
  induction l with
  | nil => rfl
  | cons x l ih =>
      rw [rankSort, filter_orderedInsertRank]
      by_cases hx : x.composite_score = s <;> simp [List.filter, hx, ih]

theorem length_collectResultsFrom (artifacts : Nat → ArtifactRead)
    (i : Nat) (requests : List AgentRequest) :
    (collectResultsFrom artifacts i requests).length = requests.length := by
  induction requests generalizing i with
  | nil => rfl
  | cons request rest ih => simp [collectResultsFrom, ih]

theorem getElem?_collectResultsFrom (artifacts : Nat → ArtifactRead)
    (i : Nat) (requests : List AgentRequest) (j : Nat) :
    (collectResultsFrom artifacts i requests).get? j =
      (requests.get? j).map (fun request => collectOne request (artifacts (i + j))) := by
  induction requests generalizing i j with
  | nil => simp [collectResultsFrom]
  | cons request rest ih =>
      cases j with
      | zero => simp [collectResultsFrom]
      | succ j =>
          simp only [collectResultsFrom, List.get?]
          rw [ih]
          have hidx : i + 1 + j = i + (j + 1) := by omega
          rw [hidx]

theorem decodeStrings_map_str (l : List String) :
    decodeStrings (l.map Json.str) = some l := by
  induction l with
  | nil => rfl
  | cons s rest ih => simp [decodeStrings, ih]

theorem decode_encode_testResults (t : TestResults) :
    decodeTestResults (encodeTestResults t) = some t := by
  cases t with
  | mk passed failed total coverage duration =>
      cases coverage <;>
        simp [decodeTestResults, encodeTestResults, Json.getField,
          List.lookup, decodeOptField, Json.asNum]

theorem decode_encode_playwright (p : PlaywrightResults) :
    decodePlaywrightResults (encodePlaywrightResults p) = some p := by
  cases p with
  | mk passed failed total screenshots duration =>
      simp [decodePlaywrightResults, encodePlaywrightResults, Json.getField,
        List.lookup, Json.asNum, decodeStrings_map_str]

theorem decode_encode_metrics (m : AgentMetrics) :
    decodeAgentMetrics (encodeAgentMetrics m) = some m := by
  cases m
  simp [decodeAgentMetrics, encodeAgentMetrics, Json.getField,
    List.lookup, Json.asNum]

theorem decode_encode_buildStatus (b : BuildStatus) :
    decodeBuildStatus (encodeBuildStatus b) = some b := by
  cases b <;> simp [decodeBuildStatus, encodeBuildStatus]

/-- C5: for every `AgentResult` with `metrics.execution_time_ms = 0`,
computing the composite score raises no division error (the scoring
function is total) and the performance sub-score is exactly `1` —
neither infinity nor `0`: `10000 / 0` evaluates to `Infinity` and
`Math.min(1, Infinity) = 1`. -/
theorem performanceScore_zero_time (r : AgentResult)
    (h : r.metrics.execution_time_ms = 0) :
    performanceScore r = JSNum.fin 1 ∧
    performanceScore r ≠ JSNum.inf ∧
    performanceScore r ≠ JSNum.fin 0 := by
  have h1 : performanceScore r = JSNum.fin 1 := by
    unfold performanceScore
    rw [h]
    norm_num [JSNum.div, JSNum.minJS]
  refine ⟨h1, ?_, ?_⟩
  · rw [h1]; intro hc; exact JSNum.noConfusion hc
  · rw [h1]; intro hc
    have : (1 : ℚ) = 0 := JSNum.fin.inj hc
    norm_num at this

/-- Witness for C5 at the concrete result `agentZeroTime`. -/
theorem performanceScore_zero_time_witness :
    performanceScore agentZeroTime = JSNum.fin 1 ∧
    performanceScore agentZeroTime ≠ JSNum.inf ∧
    performanceScore agentZeroTime ≠ JSNum.fin 0 :=
  performanceScore_zero_time agentZeroTime rfl

/-- C7: for every result list, final branch, weight configuration,
repository URL and git-process outcome, merging with strategy kind
`best_per_file` and with kind `composite` are behaviorally identical to
merging with kind `best_overall` (which applies the merge to the
top-ranked result): both fall back to it. -/
theorem merge_fallback_strategies_equiv (results : List AgentResult)
    (finalBranch repoUrl : String) (w : Weights) (world : GitWorld) :
    mergeBestSolutions results finalBranch
        { type := MergeType.best_per_file, weights := w } repoUrl world =
      mergeBestSolutions results finalBranch
        { type := MergeType.best_overall, weights := w } repoUrl world ∧
    mergeBestSolutions results finalBranch
        { type := MergeType.composite, weights := w } repoUrl world =
      mergeBestSolutions results finalBranch
        { type := MergeType.best_overall, weights := w } repoUrl world := by
  exact ⟨rfl, rfl⟩

/-- C8: the data-model invariant `quality_score ∈ [0, 100]` is violated by
`AgentRunner.calculateMetrics` on the success path: when
`git diff --numstat HEAD` prints nothing (no tracked-file changes), the
loop computes `parseInt('') + parseInt(undefined)` and
`quality_score = Math.min(100, NaN / 10) = NaN`, which lies in no
interval. -/
theorem calculateMetrics_empty_diff_quality_nan :
    (calculateMetrics [] ("")).quality_score = JSNum.nan ∧
    (calculateMetrics [] ("")).lines_added = JSNum.nan ∧
    (calculateMetrics [] ("")).lines_removed = JSNum.nan := by
  refine ⟨?_, ?_, ?_⟩ <;> decide

/-- C9: serializing any `AgentResult` to the per-agent JSON artifact
(`JSON.stringify`, which omits `undefined` optional fields) and reloading
it (`JSON.parse` plus field extraction) yields a value equal to the
original in every field, with absence of the optional fields
`test_results`, `playwright_results` and `error` preserved. -/
theorem agentResult_artifact_roundtrip (r : AgentResult) :
    decodeAgentResult (encodeAgentResult r) = some r := by
  cases r with
  | mk aid bn succ ch tr bs pw m err =>
      cases tr <;> cases pw <;> cases err <;>
        simp [decodeAgentResult, encodeAgentResult, Json.getField, List.lookup,
          decodeOptField, Json.asStr, Json.asBool, decodeStrings_map_str,
          decode_encode_testResults, decode_encode_metrics,
          decode_encode_playwright, decode_encode_buildStatus]

/-- C10: for every output string, `parseTestResults` returns a summary
with `total = passed + failed` and `duration_ms = 0`, and
`parsePlaywrightResults` returns one with `total = passed + failed`, an
empty screenshot list and `duration_ms = 0`; a count whose pattern does
not match is `0`. -/
theorem parse_results_shape (output : String) :
    (parseTestResults output).total =
      (parseTestResults output).passed + (parseTestResults output).failed ∧
    (parseTestResults output).duration_ms = 0 ∧
    (parsePlaywrightResults output).total =
      (parsePlaywrightResults output).passed + (parsePlaywrightResults output).failed ∧
    (parsePlaywrightResults output).screenshots = [] ∧
    (parsePlaywrightResults output).duration_ms = 0 ∧
    (extractCount output ("passing") = none → (parseTestResults output).passed = 0) ∧
    (extractCount output ("failing") = none → (parseTestResults output).failed = 0) ∧
    (extractCount output ("passed") = none → (parsePlaywrightResults output).passed = 0) ∧
    (extractCount output ("failed") = none → (parsePlaywrightResults output).failed = 0) := by
  refine ⟨rfl, rfl, rfl, rfl, rfl, ?_, ?_, ?_, ?_⟩ <;>
    · intro h
      simp [parseTestResults, parsePlaywrightResults, h]

/-- Witness for C10 at the concrete output `"Compiled with warnings"`,
in which no count pattern matches. -/
theorem parse_results_shape_witness :
    (parseTestResults ("Compiled with warnings")).passed = 0 ∧
    (parseTestResults ("Compiled with warnings")).failed = 0 ∧
    (parseTestResults ("Compiled with warnings")).total =
      (parseTestResults ("Compiled with warnings")).passed +
        (parseTestResults ("Compiled with warnings")).failed ∧
    (parsePlaywrightResults ("Compiled with warnings")).screenshots = [] :=
  ⟨(parse_results_shape ("Compiled with warnings")).2.2.2.2.2.1 rfl,
   (parse_results_shape ("Compiled with warnings")).2.2.2.2.2.2.1 rfl,
   (parse_results_shape ("Compiled with warnings")).1,
   (parse_results_shape ("Compiled with warnings")).2.2.2.1⟩

/-- C1: whenever the coordinator's run returns a result collection, it
contains exactly one `AgentResult` per request, index-aligned with the
request list; a missing artifact is replaced at its index by a synthetic
failure result with error `"Agent did not complete execution"`, and an
unreadable one by a synthetic failure result with a read-failure message —
never a partial collection. -/
theorem coordinator_collect_length_alignment (requests : List AgentRequest)
    (artifacts : Nat → ArtifactRead) (exitCode : Int) (stderr : String)
    (results : List AgentResult)
    (h : executeDockerCompose requests artifacts exitCode stderr =
      Except.ok results) :
    results.length = requests.length ∧
    ∀ i : Nat, results.get? i = (requests.get? i).map (fun request =>
      match artifacts i with
      | ArtifactRead.ok r => r
      | ArtifactRead.missing =>
          { agent_id := request.llm_preset.provider
            branch_name := request.branch_name
            success := false
            changes_made := []
            test_results := none
            build_status := BuildStatus.not_run
            playwright_results := none
            metrics := { files_changed := 0, lines_added := 0, lines_removed := 0,
                         complexity_score := 0, quality_score := 0,
                         execution_time_ms := 0 }
            error := some ("Agent did not complete execution") }
      | ArtifactRead.failed msg =>
          { agent_id := request.llm_preset.provider
            branch_name := request.branch_name
            success := false
            changes_made := []
            test_results := none
            build_status := BuildStatus.not_run
            playwright_results := none
            metrics := { files_changed := 0, lines_added := 0, lines_removed := 0,
                         complexity_score := 0, quality_score := 0,
                         execution_time_ms := 0 }
            error := some ("Failed to read result: " ++ msg) }) := by
  have hres : results = collectResults requests artifacts := by
    unfold executeDockerCompose at h
    by_cases hc : exitCode = 0
    · rw [if_pos hc] at h
      exact (Except.ok.inj h).symm
    · rw [if_neg hc] at h
      exact absurd h (by simp)
  subst hres
  constructor
  · simpa [collectResults] using length_collectResultsFrom artifacts 0 requests
  · intro i
    rw [collectResults, getElem?_collectResultsFrom]
    have h0 : 0 + i = i := Nat.zero_add i
    rw [h0]
    cases hq : requests.get? i with
    | none => rfl
    | some request => cases artifacts i <;> rfl

/-- Witness for C1 at a three-request run in which agent 0 finished,
agent 1 left no artifact and agent 2's artifact was unreadable. -/
theorem coordinator_collect_length_alignment_witness :
    (collectResults [sampleRequest, sampleRequest, sampleRequest]
      sampleArtifacts).length =
      [sampleRequest, sampleRequest, sampleRequest].length ∧
    ∀ i : Nat,
      (collectResults [sampleRequest, sampleRequest, sampleRequest]
          sampleArtifacts).get? i =
        ([sampleRequest, sampleRequest, sampleRequest].get? i).map (fun request =>
          match sampleArtifacts i with
          | ArtifactRead.ok r => r
          | ArtifactRead.missing =>
              { agent_id := request.llm_preset.provider
                branch_name := request.branch_name
                success := false
                changes_made := []
                test_results := none
                build_status := BuildStatus.not_run
                playwright_results := none
                metrics := { files_changed := 0, lines_added := 0,
                             lines_removed := 0, complexity_score := 0,
                             quality_score := 0, execution_time_ms := 0 }
                error := some ("Agent did not complete execution") }
          | ArtifactRead.failed msg =>
              { agent_id := request.llm_preset.provider
                branch_name := request.branch_name
                success := false
                changes_made := []
                test_results := none
                build_status := BuildStatus.not_run
                playwright_results := none
                metrics := { files_changed := 0, lines_added := 0,
                             lines_removed := 0, complexity_score := 0,
                             quality_score := 0, execution_time_ms := 0 }
                error := some ("Failed to read result: " ++ msg) }) :=
  coordinator_collect_length_alignment
    [sampleRequest, sampleRequest, sampleRequest] sampleArtifacts 0 ("")
    (collectResults [sampleRequest, sampleRequest, sampleRequest] sampleArtifacts)
    rfl

theorem qualityScoreOf_eq (r : AgentResult) :
    qualityScoreOf r = JSNum.fin (r.metrics.quality_score / 100) := by
  unfold qualityScoreOf
  norm_num [JSNum.div]

theorem performanceScore_eq_zero (r : AgentResult)
    (h : r.metrics.execution_time_ms = 0) : performanceScore r = JSNum.fin 1 := by
  unfold performanceScore
  rw [h]
  norm_num [JSNum.div, JSNum.minJS]

theorem performanceScore_eq_pos (r : AgentResult)
    (h : r.metrics.execution_time_ms ≠ 0) :
    performanceScore r = JSNum.fin (min 1 (10000 / r.metrics.execution_time_ms)) := by
  unfold performanceScore
  simp [JSNum.div, h, JSNum.minJS]

theorem buildScoreOf_eq (r : AgentResult) :
    buildScoreOf r =
      JSNum.fin (if r.build_status = BuildStatus.success then 1 else 0) := by
  unfold buildScoreOf
  by_cases hb : r.build_status = BuildStatus.success <;> simp [hb]

/-- C2 counterexample: on an `AgentResult` whose test summary is present
with `total = 0` (a state `runTests` really produces), the code computes
`0 / 0 = NaN` and the whole composite is `NaN`, while the claim's formula
(`test_score = 0` when `total` is not positive) gives `54/100`. -/
theorem compositeScore_zero_total_counterexample :
    calculateCompositeScore agentZeroTotal generateWeights = JSNum.nan ∧
    scoreSpec agentZeroTotal generateWeights = 54 / 100 ∧
    calculateCompositeScore agentZeroTotal generateWeights ≠
      JSNum.fin (scoreSpec agentZeroTotal generateWeights) := by
  have h1 : calculateCompositeScore agentZeroTotal generateWeights = JSNum.nan := by
    norm_num [calculateCompositeScore, testScoreOf, buildScoreOf, qualityScoreOf,
      performanceScore, agentZeroTotal, agentA, metricsA, generateWeights,
      JSNum.div, JSNum.mul, JSNum.add, JSNum.minJS, min_def]
  have h2 : scoreSpec agentZeroTotal generateWeights = 54 / 100 := by
    norm_num [scoreSpec, agentZeroTotal, agentA, metricsA, generateWeights, min_def]
  refine ⟨h1, h2, ?_⟩
  rw [h1]
  intro hc
  exact JSNum.noConfusion hc

/-- C2 (amended): for every `AgentResult` whose test summary is absent or
has positive `total`, the composite score is exactly the spec formula
`test_score*w.test_success + quality*w.code_quality + perf*w.performance
+ build_score*0.1`; in the spec's concrete scenario Agent A scores `0.86`
and ranks above Agent B, who scores `0.78`.  (When a test summary is
present with `total = 0` the code instead follows JavaScript division,
producing `NaN` — see the counterexample.) -/
theorem compositeScore_matches_spec (r : AgentResult) (w : Weights)
    (h : r.test_results = none ∨ ∃ t, r.test_results = some t ∧ 0 < t.total) :
    calculateCompositeScore r w = JSNum.fin (scoreSpec r w) ∧
    calculateCompositeScore agentA generateWeights = JSNum.fin (86 / 100) ∧
    calculateCompositeScore agentB generateWeights = JSNum.fin (78 / 100) ∧
    rankResults [agentB, agentA] strategyExample =
      [{ result := agentA, composite_score := JSNum.fin (86 / 100) },
       { result := agentB, composite_score := JSNum.fin (78 / 100) }] := by
  have hA : calculateCompositeScore agentA generateWeights = JSNum.fin (86 / 100) := by
    norm_num [calculateCompositeScore, testScoreOf, buildScoreOf, qualityScoreOf,
      performanceScore, agentA, metricsA, generateWeights,
      JSNum.div, JSNum.mul, JSNum.add, JSNum.minJS, min_def]
  have hB : calculateCompositeScore agentB generateWeights = JSNum.fin (78 / 100) := by
    norm_num [calculateCompositeScore, testScoreOf, buildScoreOf, qualityScoreOf,
      performanceScore, agentB, agentA, metricsA, generateWeights,
      JSNum.div, JSNum.mul, JSNum.add, JSNum.minJS, min_def]
  refine ⟨?_, hA, hB, ?_⟩
  · have hbuild := buildScoreOf_eq r
    have hqual := qualityScoreOf_eq r
    rcases h with hnone | ⟨t, ht, htpos⟩
    · have hts : testScoreOf r = JSNum.fin 0 := by simp [testScoreOf, hnone]
      by_cases hz : r.metrics.execution_time_ms = 0
      · rw [calculateCompositeScore, hts, hbuild, hqual, performanceScore_eq_zero r hz]
        simp only [JSNum.mul, JSNum.add, scoreSpec, hnone, if_pos hz]
      · rw [calculateCompositeScore, hts, hbuild, hqual, performanceScore_eq_pos r hz]
        simp only [JSNum.mul, JSNum.add, scoreSpec, hnone, if_neg hz]
    · have hts : testScoreOf r = JSNum.fin (t.passed / t.total) := by
        simp [testScoreOf, ht, JSNum.div, ne_of_gt htpos]
      by_cases hz : r.metrics.execution_time_ms = 0
      · rw [calculateCompositeScore, hts, hbuild, hqual, performanceScore_eq_zero r hz]
        simp only [JSNum.mul, JSNum.add, scoreSpec, ht, if_pos htpos, if_pos hz]
      · rw [calculateCompositeScore, hts, hbuild, hqual, performanceScore_eq_pos r hz]
        simp only [JSNum.mul, JSNum.add, scoreSpec, ht, if_pos htpos, if_neg hz]
  · norm_num [rankResults, rankSort, orderedInsertRank, rankRel, JSNum.ltb,
      strategyExample, calculateCompositeScore, testScoreOf, buildScoreOf,
      qualityScoreOf, performanceScore, agentB, agentA, metricsA, generateWeights,
      JSNum.div, JSNum.mul, JSNum.add, JSNum.minJS, min_def]

/-- Witness for C2 at Agent A (test summary present with `total = 10 > 0`). -/
theorem compositeScore_matches_spec_witness :
    calculateCompositeScore agentA generateWeights =
      JSNum.fin (scoreSpec agentA generateWeights) ∧
    calculateCompositeScore agentA generateWeights = JSNum.fin (86 / 100) ∧
    calculateCompositeScore agentB generateWeights = JSNum.fin (78 / 100) ∧
    rankResults [agentB, agentA] strategyExample =
      [{ result := agentA, composite_score := JSNum.fin (86 / 100) },
       { result := agentB, composite_score := JSNum.fin (78 / 100) }] :=
  compositeScore_matches_spec agentA generateWeights
    (Or.inr ⟨{ passed := 8, failed := 2, total := 10, duration_ms := 0 },
      rfl, by norm_num⟩)

/-- C3: when every computed composite score is an actual number (the
comparator is consistent, which is when the built-in stable sort's
behaviour is determined), ranking permutes the scored input, sorts it
descending by composite score, and is stable: elements of equal score
appear in the output in exactly their input order (stated as: filtering
any score class commutes with ranking). -/
theorem rankResults_stable_descending (results : List AgentResult)
    (strategy : MergeStrategy)
    (h : ∀ r ∈ results, ∃ q : ℚ,
      calculateCompositeScore r strategy.weights = JSNum.fin q) :
    List.Perm (rankResults results strategy)
      (results.map (fun r =>
        { result := r
          composite_score := calculateCompositeScore r strategy.weights })) ∧
    (rankResults results strategy).Pairwise descAt ∧
    ∀ s : JSNum,
      (rankResults results strategy).filter
        (fun z => decide (z.composite_score = s)) =
      (results.map (fun r =>
        { result := r
          composite_score := calculateCompositeScore r strategy.weights })).filter
        (fun z => decide (z.composite_score = s)) := by
  have hfin : finiteScores (results.map (fun r =>
      ({ result := r
         composite_score := calculateCompositeScore r strategy.weights } :
        RankedResult))) := by
    intro z hz
    rcases List.mem_map.mp hz with ⟨r, hr, rfl⟩
    exact h r hr
  exact ⟨perm_rankSort _, pairwise_rankSort hfin, fun s => filter_rankSort _ s⟩

/-- Witness for C3 on the concrete two-element input `[agentB, agentA]`,
whose scores are the finite values `78/100` and `86/100`. -/
theorem rankResults_stable_descending_witness :
    List.Perm (rankResults [agentB, agentA] strategyExample)
      ([agentB, agentA].map (fun r =>
        { result := r
          composite_score := calculateCompositeScore r strategyExample.weights })) ∧
    (rankResults [agentB, agentA] strategyExample).Pairwise descAt ∧
    ∀ s : JSNum,
      (rankResults [agentB, agentA] strategyExample).filter
        (fun z => decide (z.composite_score = s)) =
      ([agentB, agentA].map (fun r =>
        { result := r
          composite_score := calculateCompositeScore r strategyExample.weights })).filter
        (fun z => decide (z.composite_score = s)) :=
  rankResults_stable_descending [agentB, agentA] strategyExample (by
    intro r hr
    rcases List.mem_cons.mp hr with rfl | hr
    · exact ⟨78 / 100, by
        norm_num [calculateCompositeScore, testScoreOf, buildScoreOf,
          qualityScoreOf, performanceScore, agentB, agentA, metricsA,
          strategyExample, generateWeights, JSNum.div, JSNum.mul, JSNum.add,
          JSNum.minJS, min_def]⟩
    · rcases List.mem_singleton.mp hr with rfl
      exact ⟨86 / 100, by
        norm_num [calculateCompositeScore, testScoreOf, buildScoreOf,
          qualityScoreOf, performanceScore, agentA, metricsA,
          strategyExample, generateWeights, JSNum.div, JSNum.mul, JSNum.add,
          JSNum.minJS, min_def]⟩)

/-- C4 counterexample: when every agent fails, the outcome's `error`
string is `"No agents completed successfully"`, not the literal
`"NoSuccessfulAgents"` the claim states. -/
theorem noSuccessfulAgents_message_counterexample :
    (generate [failedAgent] ("repo") ("feat") MergeType.best_overall ("url")
        allOkWorld none).1.error = some ("No agents completed successfully") ∧
    some ("No agents completed successfully") ≠
      (some ("NoSuccessfulAgents") : Option String) := by
  constructor
  · rfl
  · intro hc
    have : ("No agents completed successfully" : String) = "NoSuccessfulAgents" :=
      Option.some.inj hc
    exact absurd this (by decide)

/-- C4 (amended): if every `AgentResult` has `success = false`, the
orchestration short-circuits to a failure outcome — `success = false`,
error `"No agents completed successfully"` (the spec's
`NoSuccessfulAgents` condition), the full agent-result list included —
and no step at all is attempted: no clone, no branch creation, no merge,
no push, no pull request. -/
theorem generate_all_failed_short_circuit (agentResults : List AgentResult)
    (repoName featureName repoUrl : String) (mergeType : MergeType)
    (world : GitWorld) (prOutcome : Option String)
    (h : ∀ r ∈ agentResults, r.success = false) :
    generate agentResults repoName featureName mergeType repoUrl world
        prOutcome =
      ({ success := false
         final_branch := none
         pr_url := none
         agent_results := agentResults
         error := some ("No agents completed successfully") }, []) := by
  have hf : agentResults.filter (fun r => r.success) = [] := by
    rw [List.filter_eq_nil_iff]
    intro a ha
    simp [h a ha]
  simp [generate, hf]

/-- Witness for C4 at the one-agent run `[failedAgent]`. -/
theorem generate_all_failed_short_circuit_witness :
    generate [failedAgent] ("repo") ("feat") MergeType.best_overall ("url")
        pushFailWorld none =
      ({ success := false
         final_branch := none
         pr_url := none
         agent_results := [failedAgent]
         error := some ("No agents completed successfully") }, []) :=
  generate_all_failed_short_circuit [failedAgent] ("repo") ("feat") ("url")
    MergeType.best_overall pushFailWorld none (by
      intro r hr
      rcases List.mem_singleton.mp hr with rfl
      rfl)

theorem rankResults_ne_nil {results : List AgentResult}
    (hne : results ≠ []) (strategy : MergeStrategy) :
    rankResults results strategy ≠ [] := by
  intro hc
  have hlen := (perm_rankSort (results.map (fun r =>
    ({ result := r
       composite_score := calculateCompositeScore r strategy.weights } :
      RankedResult)))).length_eq
  rw [show rankSort (results.map (fun r =>
    ({ result := r
       composite_score := calculateCompositeScore r strategy.weights } :
      RankedResult))) = rankResults results strategy from rfl, hc] at hlen
  simp at hlen
  exact hne (List.length_eq_zero.mp hlen.symm)

theorem mergeBestSolutions_allOk (results : List AgentResult)
    (finalBranch repoUrl : String) (strategy : MergeStrategy) (world : GitWorld)
    (hne : results ≠ []) (hclone : world.clone_ok = true)
    (hbranch : world.branch_ok = true) (hcommit : world.commit_ok = true)
    (hpush : world.push_ok = true) :
    (mergeBestSolutions results finalBranch strategy repoUrl world).1 =
      Except.ok () := by
  obtain ⟨top, rest, heq⟩ :=
    List.exists_cons_of_ne_nil (rankResults_ne_nil hne strategy)
  have hmerge : (mergeTop (rankResults results strategy) world).1 =
      Except.ok () := by
    rw [mergeTop, heq]
    simp only [List.head?]
    unfold mergeBestOverall
    by_cases hm : world.merge_ok top.result.branch_name = true
    · simp [hm]
    · simp [hm, hcommit]
  unfold mergeBestSolutions setupFinalBranch
  rw [hclone, hbranch]
  simp only [if_true]
  cases strategy.type <;>
    simp_all [mergeBestPerFile, mergeComposite, pushBranch, hpush]

/-- C6 counterexample: with one successful agent but a failing `git push`
in the merge phase, the outcome reports `success = false` even though the
count of successful `AgentResult`s is positive — the claimed equality of
the success flag with that count being positive does not hold
unconditionally. -/
theorem generate_success_flag_counterexample :
    (generate [agentA] ("repo") ("feat") MergeType.best_overall ("url")
        pushFailWorld none).1.success = false ∧
    0 < [agentA].countP (fun r => r.success) := by
  constructor
  · rfl
  · decide

/-- C6 (amended): when the external merge-phase commands succeed (clone,
branch creation, conflict-resolution commit and push all exit 0), the
outcome's success flag equals "at least one `AgentResult` has
`success = true`"; with at least one success the outcome carries the
final branch name and whatever the pull-request step produced — in
particular a failed pull-request creation (`prOutcome = none`) is
non-fatal: the outcome still reports `success = true` with `pr_url`
unset. -/
theorem generate_success_iff_agent_success (agentResults : List AgentResult)
    (repoName featureName repoUrl : String) (mergeType : MergeType)
    (world : GitWorld) (prOutcome : Option String)
    (hclone : world.clone_ok = true) (hbranch : world.branch_ok = true)
    (hcommit : world.commit_ok = true) (hpush : world.push_ok = true) :
    ((generate agentResults repoName featureName mergeType repoUrl world
        prOutcome).1.success = true ↔
      0 < agentResults.countP (fun r => r.success)) ∧
    (0 < agentResults.countP (fun r => r.success) →
      (generate agentResults repoName featureName mergeType repoUrl world
          prOutcome).1.final_branch =
        some (repoName ++ "/" ++ featureName ++ "/final") ∧
      (generate agentResults repoName featureName mergeType repoUrl world
          prOutcome).1.pr_url = prOutcome ∧
      (generate agentResults repoName featureName mergeType repoUrl world
          prOutcome).1.agent_results = agentResults) := by
  have hcount : 0 < agentResults.countP (fun r => r.success) ↔
      agentResults.filter (fun r => r.success) ≠ [] := by
    rw [List.countP_eq_length_filter]
    exact List.length_pos
  by_cases hf : agentResults.filter (fun r => r.success) = []
  · have hgen : generate agentResults repoName featureName mergeType repoUrl
        world prOutcome =
        ({ success := false
           final_branch := none
           pr_url := none
           agent_results := agentResults
           error := some ("No agents completed successfully") }, []) := by
      simp [generate, hf]
    rw [hgen]
    constructor
    · simp only [Bool.false_eq_true, false_iff]
      intro hpos
      exact (hcount.mp hpos) hf
    · intro hpos
      exact absurd hf (hcount.mp hpos).elim
  · have hok := mergeBestSolutions_allOk (agentResults.filter (fun r => r.success))
      (repoName ++ "/" ++ featureName ++ "/final") repoUrl
      { type := mergeType, weights := generateWeights } world hf hclone hbranch
      hcommit hpush
    have hie : (agentResults.filter (fun r => r.success)).isEmpty = false := by
      obtain ⟨a, rest, heq⟩ := List.exists_cons_of_ne_nil hf
      rw [heq]
      rfl
    constructor
    · rw [generate]
      simp only [hie, Bool.false_eq_true, if_false]
      rw [hok]
      simpa using hcount.mpr hf
    · intro hpos
      rw [generate]
      simp only [hie, Bool.false_eq_true, if_false]
      rw [hok]
      exact ⟨rfl, rfl, rfl⟩

/-- Witness for C6 at the one-successful-agent run `[agentA, failedAgent]`
with every git command succeeding and a failed pull-request creation. -/
theorem generate_success_iff_agent_success_witness :
    ((generate [agentA, failedAgent] ("repo") ("feat") MergeType.best_overall
        ("url") allOkWorld none).1.success = true ↔
      0 < [agentA, failedAgent].countP (fun r => r.success)) ∧
    (0 < [agentA, failedAgent].countP (fun r => r.success) →
      (generate [agentA, failedAgent] ("repo") ("feat") MergeType.best_overall
          ("url") allOkWorld none).1.final_branch =
        some ("repo" ++ "/" ++ "feat" ++ "/final") ∧
      (generate [agentA, failedAgent] ("repo") ("feat") MergeType.best_overall
          ("url") allOkWorld none).1.pr_url = none ∧
      (generate [agentA, failedAgent] ("repo") ("feat") MergeType.best_overall
          ("url") allOkWorld none).1.agent_results = [agentA, failedAgent]) :=
  generate_success_iff_agent_success [agentA, failedAgent] ("repo") ("feat")
    ("url") MergeType.best_overall allOkWorld none rfl rfl rfl rfl
